import Mathlib

/-!
Shallow embedding of the `u2f-core` crate (`src/u2f-core/src/lib.rs`):
the APDU request decoder, the response encoder, the credential and
counter data model, the reference in-memory secret store, and the
`U2F` authenticator core with its `call` service dispatch.

Bytes are modelled as `Nat` (with explicit `% 256` / `% 2 ^ 32` where the
source truncates machine integers).  Fallible Rust code returns
`Result`/panics; panics are modelled explicitly by a `panics` outcome so
that the decoder's behaviour on malformed input is visible.
-/

instance {ε α : Type} [DecidableEq ε] [DecidableEq α] : DecidableEq (Except ε α) :=
  fun x y =>
  match x, y with
  | .ok a, .ok b => if h : a = b then isTrue (by rw [h]) else isFalse (by simp [h])
  | .error a, .error b => if h : a = b then isTrue (by rw [h]) else isFalse (by simp [h])
  | .ok _, .error _ => isFalse (by simp)
  | .error _, .ok _ => isFalse (by simp)

/-- Outcome of running source code that may return `Err(())` or panic
(`unwrap`, `assert!`, `panic!`). -/
inductive DResult (α : Type) where
  | ok (a : α)
  | err
  | panics
deriving DecidableEq

def DResult.bind {α β : Type} : DResult α → (α → DResult β) → DResult β
  | .ok a, f => f a
  | .err, _ => .err
  | .panics, _ => .panics

instance : Monad DResult where
  pure := DResult.ok
  bind := DResult.bind

/-- `Cursor::read_u8().unwrap()`: next byte, panics at end of input. -/
def readU8 (data : List Nat) (pos : Nat) : DResult (Nat × Nat) :=
  match data[pos]? with
  | some b => .ok (b, pos + 1)
  | none => .panics

/-- `Cursor::read_u16::<BigEndian>().unwrap()`: two bytes big-endian,
panics at end of input. -/
def readU16 (data : List Nat) (pos : Nat) : DResult (Nat × Nat) :=
  match data[pos]?, data[pos + 1]? with
  | some b1, some b2 => .ok (b1 * 256 + b2, pos + 2)
  | _, _ => .panics

/-- `Cursor::read_exact(&mut buf).unwrap()` into a buffer of `n` bytes:
returns the `n` bytes at `pos`, panics when fewer remain. -/
def readExact (data : List Nat) (pos n : Nat) : DResult (List Nat × Nat) :=
  if pos + n ≤ data.length then .ok ((data.drop pos).take n, pos + n) else .panics

def REGISTER_COMMAND_CODE : Nat := 0x01
def AUTHENTICATE_COMMAND_CODE : Nat := 0x02
def VERSION_COMMAND_CODE : Nat := 0x03

def SW_NO_ERROR : Nat := 0x9000
def SW_WRONG_DATA : Nat := 0x6A80
def SW_CONDITIONS_NOT_SATISFIED : Nat := 0x6985
def SW_INS_NOT_SUPPORTED : Nat := 0x6D00
def SW_WRONG_LENGTH : Nat := 0x6700
def SW_CLA_NOT_SUPPORTED : Nat := 0x6E00
def SW_UNKNOWN : Nat := 0x6F00

def AUTH_ENFORCE : Nat := 0x03
def AUTH_CHECK_ONLY : Nat := 0x07
def AUTH_FLAG_TUP : Nat := 0x01

def MAX_KEY_HANDLE_LEN : Nat := 128

inductive AuthenticateControlCode where
  | checkOnly
  | enforceUserPresenceAndSign
  | dontEnforceUserPresenceAndSign
deriving DecidableEq

/-- `Request` from the source; parameters and key handles are byte lists. -/
inductive Request where
  | register (application challenge : List Nat)
  | authenticate (application challenge : List Nat)
      (control_code : AuthenticateControlCode) (key_handle : List Nat)
  | getVersion
  | wink
deriving DecidableEq

/-- `KeyHandle::from`: `assert!(bytes.len() <= MAX_KEY_HANDLE_LEN)` then wraps. -/
def KeyHandle.from' (bytes : List Nat) : DResult (List Nat) :=
  if bytes.length ≤ MAX_KEY_HANDLE_LEN then .ok bytes else .panics

/-- The control-byte `match` in `Request::decode`.  The source's third arm
is the Rust or-pattern `AUTH_ENFORCE | AUTH_FLAG_TUP`, which matches the
value 0x03 or the value 0x01 (0x03 is already taken by the second arm);
every other value hits `panic!("Unknown control code")`. -/
def decodeControlCode (parameter1 : Nat) : DResult AuthenticateControlCode :=
  if parameter1 = AUTH_CHECK_ONLY then .ok .checkOnly
  else if parameter1 = AUTH_ENFORCE then .ok .enforceUserPresenceAndSign
  else if parameter1 = AUTH_ENFORCE ∨ parameter1 = AUTH_FLAG_TUP then
    .ok .dontEnforceUserPresenceAndSign
  else .panics

/-- The `INS` dispatch at the end of `Request::decode`, reading from a
fresh cursor over the request data. -/
def decodeCommand (command_code parameter1 parameter2 : Nat)
    (request_data : List Nat) (request_data_len : Nat) : DResult Request :=
  if command_code = REGISTER_COMMAND_CODE then do
    let (challenge_parameter, p) ← readExact request_data 0 32
    let (application_parameter, p) ← readExact request_data p 32
    if p = request_data_len then
      pure (.register application_parameter challenge_parameter)
    else .panics
  else if command_code = AUTHENTICATE_COMMAND_CODE then
    if parameter2 = 0 then do
      let control_code ← decodeControlCode parameter1
      let (challenge_parameter, p) ← readExact request_data 0 32
      let (application_parameter, p) ← readExact request_data p 32
      let (key_handle_len, p) ← readU8 request_data p
      let (key_handle_bytes, _) ← readExact request_data p key_handle_len
      let key_handle ← KeyHandle.from' key_handle_bytes
      pure (.authenticate application_parameter challenge_parameter
        control_code key_handle)
    else .panics
  else if command_code = VERSION_COMMAND_CODE then
    if parameter1 = 0 ∧ parameter2 = 0 ∧ request_data_len = 0 then
      pure .getVersion
    else .panics
  else .panics

/-- `Request::decode` (extended-length APDU only), including each
`unwrap`/`assert` of the source as a `panics` outcome and the single
`return Err(())` (the unexpected-`Le`-shape arm) as `err`. -/
def Request.decode (data : List Nat) : DResult Request := do
  let (_class_byte, p) ← readU8 data 0
  let (command_code, p) ← readU8 data p
  let (parameter1, p) ← readU8 data p
  let (parameter2, p) ← readU8 data p
  let remaining_len := data.length - p
  let (request_data_len, p) ←
    if remaining_len = 3 then pure (0, p)
    else do
      let (zero_byte, p) ← readU8 data p
      if zero_byte = 0 then do
        let (value, p) ← readU16 data p
        pure ((if value = 0 then 65535 else value), p)
      else (.panics : DResult (Nat × Nat))
  let (request_data, p) ← readExact data p request_data_len
  let remaining_len2 := data.length - p
  let (_max_response_data_len, _) ←
    if remaining_len2 = 0 then (pure (0, p) : DResult (Nat × Nat))
    else if remaining_len2 = 2 then do
      let (value, p) ← readU16 data p
      pure ((if value = 0 then 65535 else value), p)
    else if remaining_len2 = 3 then do
      let (zero_byte, p) ← readU8 data p
      if zero_byte = 0 then do
        let (value, p) ← readU16 data p
        pure ((if value = 0 then 65535 else value), p)
      else (.panics : DResult (Nat × Nat))
    else (.err : DResult (Nat × Nat))
  decodeCommand command_code parameter1 parameter2 request_data request_data_len

/-- `subtle::slices_equal`, called only on equal-length slices: the
constant-time loop ORs together the XOR of each byte pair, and the final
masking step turns accumulator 0 into result 1 and anything else into 0. -/
def slices_equal (a b : List Nat) : Nat :=
  if (List.zipWith (fun x y => x ^^^ y) a b).foldl (fun acc d => acc ||| d) 0 = 0
  then 1 else 0

/-- `KeyHandle::eq_consttime`: equal lengths, then `slices_equal == 1`. -/
def eq_consttime (a b : List Nat) : Bool :=
  a.length == b.length && slices_equal a b == 1

/-- `ApplicationKey { application, handle, key }`; the opaque P-256
private key is modelled by an abstract identifier. -/
structure ApplicationKey where
  application : List Nat
  handle : List Nat
  key : Nat
deriving DecidableEq

/-- `InMemoryStorage`: the two `HashMap`s keyed by application parameter,
modelled as association lists where insertion replaces the existing
binding (first match wins on lookup). -/
structure Storage where
  application_keys : List (List Nat × ApplicationKey)
  counters : List (List Nat × Nat)
deriving DecidableEq

def assocGet {α : Type} : List (List Nat × α) → List Nat → Option α
  | [], _ => none
  | (k, v) :: rest, key => if k = key then some v else assocGet rest key

def assocUpdate {α : Type} : List (List Nat × α) → List Nat → α → List (List Nat × α)
  | [], _, _ => []
  | (k, v) :: rest, key, value =>
      if k = key then (key, value) :: rest else (k, v) :: assocUpdate rest key value

/-- `HashMap::insert`: replace the binding when the key is present,
otherwise add it. -/
def hmInsert {α : Type} (m : List (List Nat × α)) (key : List Nat) (value : α) :
    List (List Nat × α) :=
  match assocGet m key with
  | some _ => assocUpdate m key value
  | none => (key, value) :: m

/-- `io::Result`: collaborator calls either succeed or fail with an I/O
error (whose payload the service layer never inspects). -/
inductive IoResult (α : Type) where
  | ok (a : α)
  | ioError
deriving DecidableEq

/-- `SignError` is declared in the source as an enum with no variants. -/
inductive SignError : Type

instance : DecidableEq SignError := fun a => nomatch a

/-- The `UserPresence` trait. -/
structure UserPresence where
  approve_registration : List Nat → IoResult Bool
  approve_authentication : List Nat → IoResult Bool
  wink : IoResult Unit

/-- The `CryptoOperations` trait.  `public_key_to_raw` models the openssl
derivation `PublicKey::from_key` followed by `to_raw` (65-byte SEC1
uncompressed point) used inside `U2F::register`; certificates and
signatures are byte lists. -/
structure CryptoOperations where
  attest : List Nat → Except SignError (List Nat)
  generate_application_key : List Nat → IoResult ApplicationKey
  get_attestation_certificate : List Nat
  public_key_to_raw : Nat → List Nat
  sign : Nat → List Nat → Except SignError (List Nat)

/-- The `SecretStore` trait, with the mutable state passed explicitly. -/
structure SecretStore (σ : Type) where
  add_application_key : σ → ApplicationKey → IoResult σ
  get_then_increment_counter : σ → List Nat → IoResult (Nat × σ)
  retrieve_application_key : σ → List Nat → List Nat → IoResult (Option ApplicationKey)

def InMemoryStorage.new : Storage := ⟨[], []⟩

/-- The `SecretStore` impl for `InMemoryStorage` (source lines
1128-1165).  `get_then_increment_counter` returns and increments the
stored counter when present; when absent it inserts 0 and returns 0
without incrementing.  The `u32` increment truncates modulo `2 ^ 32`. -/
def inMemoryStore : SecretStore Storage where
  add_application_key := fun s k =>
    .ok { s with application_keys := hmInsert s.application_keys k.application k }
  get_then_increment_counter := fun s application =>
    match assocGet s.counters application with
    | some counter =>
        .ok (counter,
          { s with counters := assocUpdate s.counters application ((counter + 1) % 2 ^ 32) })
    | none => .ok (0, { s with counters := hmInsert s.counters application 0 })
  retrieve_application_key := fun s application handle =>
    .ok (match assocGet s.application_keys application with
         | some key => if eq_consttime key.handle handle then some key else none
         | none => none)

inductive StatusCode where
  | noError
  | testOfUserPresenceNotSatisfied
  | invalidKeyHandle
  | requestLengthInvalid
  | requestClassNotSupported
  | requestInstructionNotSuppored
  | unknownError
deriving DecidableEq

def statusValue : StatusCode → Nat
  | .noError => SW_NO_ERROR
  | .testOfUserPresenceNotSatisfied => SW_CONDITIONS_NOT_SATISFIED
  | .invalidKeyHandle => SW_WRONG_DATA
  | .requestLengthInvalid => SW_WRONG_LENGTH
  | .requestClassNotSupported => SW_CLA_NOT_SUPPORTED
  | .requestInstructionNotSuppored => SW_INS_NOT_SUPPORTED
  | .unknownError => SW_UNKNOWN

/-- `write_u16::<BigEndian>`: the two big-endian bytes of a `u16`. -/
def u16be (value : Nat) : List Nat :=
  [value / 256 % 256, value % 256]

/-- `StatusCode::write` appends the status word big-endian. -/
def StatusCode.write (c : StatusCode) : List Nat :=
  u16be (statusValue c)

/-- `write_u32::<BigEndian>`: the four big-endian bytes of a `u32`. -/
def u32be (value : Nat) : List Nat :=
  [value / 2 ^ 24 % 256, value / 2 ^ 16 % 256, value / 2 ^ 8 % 256, value % 256]

/-- `user_presence_byte`: bit 0 set iff user presence was verified. -/
def user_presence_byte (user_present : Bool) : Nat :=
  let byte : Nat := 0
  if user_present then byte ||| 1 else byte

/-- `Response`; certificate and signature payloads are byte lists, the
version string is kept as its ASCII bytes. -/
inductive Response where
  | registration (user_public_key : List Nat) (key_handle : List Nat)
      (attestation_certificate : List Nat) (signature : List Nat)
  | authentication (counter : Nat) (signature : List Nat) (user_present : Bool)
  | version (version_string : List Nat)
  | didWink
  | testOfUserPresenceNotSatisfied
  | invalidKeyHandle
  | unknownError
deriving DecidableEq

/-- `Response::into_bytes`.  The key-handle length is pushed `as u8`,
hence the `% 256`. -/
def Response.into_bytes : Response → List Nat
  | .registration user_public_key key_handle attestation_certificate signature =>
      [0x05] ++ user_public_key ++ [key_handle.length % 256] ++ key_handle
        ++ attestation_certificate ++ signature ++ StatusCode.write .noError
  | .authentication counter signature user_present =>
      [user_presence_byte user_present] ++ u32be counter ++ signature
        ++ StatusCode.write .noError
  | .version version_string => version_string ++ StatusCode.write .noError
  | .didWink => StatusCode.write .noError
  | .testOfUserPresenceNotSatisfied => StatusCode.write .testOfUserPresenceNotSatisfied
  | .invalidKeyHandle => StatusCode.write .invalidKeyHandle
  | .unknownError => StatusCode.write .unknownError

structure Registration where
  user_public_key : List Nat
  key_handle : List Nat
  attestation_certificate : List Nat
  signature : List Nat
deriving DecidableEq

structure Authentication where
  counter : Nat
  signature : List Nat
  user_present : Bool
deriving DecidableEq

inductive AuthenticateError where
  | approvalRequired
  | invalidKeyHandle
  | io
  | signing (e : SignError)
deriving DecidableEq

inductive RegisterError where
  | approvalRequired
  | io
  | signing (e : SignError)
deriving DecidableEq

/-- The `U2F` struct: borrowed collaborator references (the logger is
omitted, it only emits diagnostics). -/
structure U2F (σ : Type) where
  approval : UserPresence
  operations : CryptoOperations
  storage : SecretStore σ

/-- `message_to_sign_for_register`:
`0x00 ‖ application ‖ challenge ‖ keyHandle ‖ publicKey`. -/
def message_to_sign_for_register (application challenge key_bytes key_handle : List Nat) :
    List Nat :=
  [0] ++ application ++ challenge ++ key_handle ++ key_bytes

/-- `message_to_sign_for_authenticate`:
`application ‖ userPresenceByte ‖ counter(u32 BE) ‖ challenge`. -/
def message_to_sign_for_authenticate (application challenge : List Nat)
    (user_presence : Nat) (counter : Nat) : List Nat :=
  application ++ [user_presence] ++ u32be counter ++ challenge

/-- `U2F::register`, threading the store state; `?`-propagated I/O errors
carry the state reached at the failing call. -/
def U2F.register {σ : Type} (u : U2F σ) (s : σ) (application challenge : List Nat) :
    Except RegisterError Registration × σ :=
  match u.approval.approve_registration application with
  | .ioError => (.error .io, s)
  | .ok approved =>
    if !approved then (.error .approvalRequired, s)
    else
      match u.operations.generate_application_key application with
      | .ioError => (.error .io, s)
      | .ok application_key =>
        match u.storage.add_application_key s application_key with
        | .ioError => (.error .io, s)
        | .ok s1 =>
          let public_key_bytes := u.operations.public_key_to_raw application_key.key
          match u.operations.attest (message_to_sign_for_register
              application_key.application challenge public_key_bytes
              application_key.handle) with
          | .error e => (.error (.signing e), s1)
          | .ok signature =>
            (.ok { user_public_key := public_key_bytes,
                   key_handle := application_key.handle,
                   attestation_certificate := u.operations.get_attestation_certificate,
                   signature := signature }, s1)

/-- `U2F::authenticate`, threading the store state. -/
def U2F.authenticate {σ : Type} (u : U2F σ) (s : σ)
    (application challenge key_handle : List Nat) :
    Except AuthenticateError Authentication × σ :=
  match u.storage.retrieve_application_key s application key_handle with
  | .ioError => (.error .io, s)
  | .ok none => (.error .invalidKeyHandle, s)
  | .ok (some application_key) =>
    match u.approval.approve_authentication application with
    | .ioError => (.error .io, s)
    | .ok approved =>
      if !approved then (.error .approvalRequired, s)
      else
        let user_present := true
        match u.storage.get_then_increment_counter s application with
        | .ioError => (.error .io, s)
        | .ok (counter, s1) =>
          match u.operations.sign application_key.key
              (message_to_sign_for_authenticate application challenge
                (user_presence_byte user_present) counter) with
          | .error e => (.error (.signing e), s1)
          | .ok signature =>
            (.ok { counter := counter, signature := signature,
                   user_present := user_present }, s1)

/-- `U2F::get_version_string` as ASCII bytes: `"U2F_V2"`. -/
def get_version_string : List Nat := [0x55, 0x32, 0x46, 0x5F, 0x56, 0x32]

/-- `U2F::is_valid_key_handle`. -/
def U2F.is_valid_key_handle {σ : Type} (u : U2F σ) (s : σ)
    (key_handle application : List Nat) : IoResult Bool :=
  match u.storage.retrieve_application_key s application key_handle with
  | .ioError => .ioError
  | .ok (some _) => .ok true
  | .ok none => .ok false

/-- Outcome of the `Box<Future>` returned by `Service::call`:
`futures::finished(response)` or `futures::failed(io_error)`. -/
inductive CallOutcome where
  | finished (r : Response)
  | failed
deriving DecidableEq

/-- `Service::call` for `U2F` (source lines 867-983), returning the
future's outcome and the store state. -/
def U2F.call {σ : Type} (u : U2F σ) (s : σ) (req : Request) : CallOutcome × σ :=
  match req with
  | .register application challenge =>
    match u.register s application challenge with
    | (.ok r, s1) =>
        (.finished (.registration r.user_public_key r.key_handle
          r.attestation_certificate r.signature), s1)
    | (.error .approvalRequired, s1) => (.finished .testOfUserPresenceNotSatisfied, s1)
    | (.error .io, s1) => (.failed, s1)
    | (.error (.signing _), s1) => (.failed, s1)
  | .authenticate application challenge control_code key_handle =>
    match control_code with
    | .checkOnly =>
      match u.is_valid_key_handle s key_handle application with
      | .ok true => (.finished .testOfUserPresenceNotSatisfied, s)
      | .ok false => (.finished .invalidKeyHandle, s)
      | .ioError => (.failed, s)
    | .enforceUserPresenceAndSign =>
      match u.authenticate s application challenge key_handle with
      | (.ok a, s1) =>
          (.finished (.authentication a.counter a.signature a.user_present), s1)
      | (.error .approvalRequired, s1) => (.finished .testOfUserPresenceNotSatisfied, s1)
      | (.error .invalidKeyHandle, s1) => (.finished .invalidKeyHandle, s1)
      | (.error .io, s1) => (.finished .unknownError, s1)
      | (.error (.signing _), s1) => (.finished .unknownError, s1)
    | .dontEnforceUserPresenceAndSign => (.finished .testOfUserPresenceNotSatisfied, s)
  | .getVersion => (.finished (.version get_version_string), s)
  | .wink =>
    match u.approval.wink with
    | .ok _ => (.finished .didWink, s)
    | .ioError => (.finished .unknownError, s)

/-! Concrete collaborator fixtures used to instantiate the theorems. -/

/-- A `UserPresence` that approves everything (the tests' `always_approve`). -/
def approveAll : UserPresence where
  approve_registration := fun _ => .ok true
  approve_authentication := fun _ => .ok true
  wink := .ok ()

/-- A concrete, deterministic `CryptoOperations` instance. -/
def testOps : CryptoOperations where
  attest := fun m => .ok (0 :: m)
  generate_application_key := fun application =>
    .ok ⟨application, [7, 7, 7], 5⟩
  get_attestation_certificate := [0xDE, 0xAD]
  public_key_to_raw := fun _ => 4 :: List.replicate 64 2
  sign := fun k m => .ok (k :: m)

def app0 : List Nat := List.replicate 32 0
def ch0 : List Nat := List.replicate 32 0
def app1 : List Nat := List.replicate 32 1

def u2fTest : U2F Storage := ⟨approveAll, testOps, inMemoryStore⟩


/-- A `UserPresence` that denies registration (the tests' fixture for
`register_with_rejected_approval_errors`). -/
def denyPresence : UserPresence where
  approve_registration := fun _ => .ok false
  approve_authentication := fun _ => .ok true
  wink := .ok ()

/-- A `UserPresence` whose registration approval fails with an I/O error. -/
def ioRegPresence : UserPresence where
  approve_registration := fun _ => .ioError
  approve_authentication := fun _ => .ok true
  wink := .ok ()

/-- A `UserPresence` whose `wink` fails with an I/O error. -/
def ioWinkPresence : UserPresence where
  approve_registration := fun _ => .ok true
  approve_authentication := fun _ => .ok true
  wink := .ioError

/-- A secret store all of whose operations fail with I/O errors. -/
def ioStore : SecretStore Storage where
  add_application_key := fun _ _ => .ioError
  get_then_increment_counter := fun _ _ => .ioError
  retrieve_application_key := fun _ _ _ => .ioError

def u2fDeny : U2F Storage := ⟨denyPresence, testOps, inMemoryStore⟩
def u2fIoReg : U2F Storage := ⟨ioRegPresence, testOps, inMemoryStore⟩
def u2fIoWink : U2F Storage := ⟨ioWinkPresence, testOps, inMemoryStore⟩
def u2fIoStore : U2F Storage := ⟨approveAll, testOps, ioStore⟩

/-- The credential `testOps.generate_application_key` produces for `app0`. -/
def k0 : ApplicationKey := ⟨app0, [7, 7, 7], 5⟩

/-- A store holding `k0` with an already-present counter of 5. -/
def sAuth : Storage := ⟨[(app0, k0)], [(app0, 5)]⟩
def sAuth1 : Storage := ⟨[(app0, k0)], [(app0, 6)]⟩

/-- A store holding `k0` with no counter yet (as left by a registration). -/
def sAuthFresh : Storage := ⟨[(app0, k0)], []⟩

/-- A well-formed extended-length Authenticate APDU with control byte
`p1`: 65 data bytes (all-zero challenge and application, key-handle
length 0), `Le` omitted. -/
def authApdu (p1 : Nat) : List Nat :=
  [0x00, 0x02, p1, 0x00] ++ [0x00, 0x00, 0x41] ++ List.replicate 65 0

/-! Helper lemmas about the constant-time comparison. -/

theorem nat_or_eq_zero (a b : Nat) : a ||| b = 0 ↔ a = 0 ∧ b = 0 := by
  constructor
  · intro h
    refine ⟨Nat.eq_of_testBit_eq fun i => ?_, Nat.eq_of_testBit_eq fun i => ?_⟩ <;>
    · have h2 := congrArg (fun x => Nat.testBit x i) h
      simp only [Nat.testBit_lor, Nat.zero_testBit, Bool.or_eq_false_iff] at h2
      simp [Nat.zero_testBit, h2.1, h2.2]
  · rintro ⟨rfl, rfl⟩; rfl

theorem foldl_or_eq_zero (l : List Nat) (x : Nat) :
    l.foldl (fun acc d => acc ||| d) x = 0 ↔ x = 0 ∧ ∀ d ∈ l, d = 0 := by
  induction l generalizing x with
  | nil => simp
  | cons d rest ih =>
    simp only [List.foldl_cons, ih, nat_or_eq_zero, List.mem_cons]
    constructor
    · rintro ⟨⟨hx, hd⟩, hrest⟩
      exact ⟨hx, fun e he => he.elim (fun h => h ▸ hd) (hrest e)⟩
    · rintro ⟨hx, hall⟩
      exact ⟨⟨hx, hall d (Or.inl rfl)⟩, fun e he => hall e (Or.inr he)⟩

theorem zipWith_xor_zero_iff (a b : List Nat) (h : a.length = b.length) :
    (∀ d ∈ List.zipWith (fun x y => x ^^^ y) a b, d = 0) ↔ a = b := by
  induction a generalizing b with
  | nil =>
    cases b with
    | nil => simp
    | cons y ys => simp at h
  | cons x xs ih =>
    cases b with
    | nil => simp at h
    | cons y ys =>
      simp only [List.zipWith_cons_cons, List.mem_cons, List.cons.injEq]
      constructor
      · intro hall
        have hx : x ^^^ y = 0 := hall _ (Or.inl rfl)
        have hxs : xs = ys := (ih ys (by simpa using h)).1 fun d hd => hall d (Or.inr hd)
        exact ⟨Nat.xor_eq_zero.1 hx, hxs⟩
      · rintro ⟨rfl, rfl⟩
        intro d hd
        rcases hd with h1 | h2
        · simp [h1]
        · exact ((ih xs rfl).2 rfl) d h2

theorem slices_equal_eq_one_iff (a b : List Nat) :
    slices_equal a b = 1 ↔ ∀ d ∈ List.zipWith (fun x y => x ^^^ y) a b, d = 0 := by
  unfold slices_equal
  split
  · next h =>
    have hall := ((foldl_or_eq_zero _ 0).1 h).2
    exact iff_of_true rfl hall
  · next h =>
    constructor
    · intro h01; cases h01
    · intro hall
      exact absurd ((foldl_or_eq_zero _ 0).2 ⟨rfl, hall⟩) h

theorem eq_consttime_eq_true_iff (a b : List Nat) : eq_consttime a b = true ↔ a = b := by
  simp only [eq_consttime, Bool.and_eq_true, beq_iff_eq]
  constructor
  · rintro ⟨hl, hs⟩
    exact (zipWith_xor_zero_iff a b hl).1 ((slices_equal_eq_one_iff a b).1 hs)
  · rintro rfl
    exact ⟨rfl, (slices_equal_eq_one_iff a a).2 ((zipWith_xor_zero_iff a a rfl).2 rfl)⟩

theorem eq_consttime_self (a : List Nat) : eq_consttime a a = true :=
  (eq_consttime_eq_true_iff a a).2 rfl

/-- Computation rule for `InMemoryStorage::retrieve_application_key` when
the application has no stored credential. -/
theorem retrieve_inMemory_none (s : Storage) (app handle : List Nat)
    (h : assocGet s.application_keys app = none) :
    inMemoryStore.retrieve_application_key s app handle = .ok none := by
  show IoResult.ok _ = _
  rw [h]

/-- Computation rule for `InMemoryStorage::retrieve_application_key` when
the application has a stored credential. -/
theorem retrieve_inMemory_eq (s : Storage) (app handle : List Nat) (k : ApplicationKey)
    (h : assocGet s.application_keys app = some k) :
    inMemoryStore.retrieve_application_key s app handle
      = .ok (if k.handle = handle then some k else none) := by
  show IoResult.ok _ = _
  rw [h]
  show IoResult.ok (if eq_consttime k.handle handle then some k else none)
      = IoResult.ok (if k.handle = handle then some k else none)
  by_cases he : k.handle = handle
  · rw [if_pos ((eq_consttime_eq_true_iff _ _).2 he), if_pos he]
  · rw [if_neg (fun hx => he ((eq_consttime_eq_true_iff _ _).1 hx)), if_neg he]

/-- C10: `eq_consttime` coincides with byte-vector equality, and the
in-memory store's retrieval succeeds exactly when the stored handle's
bytes equal the presented handle's bytes. -/
theorem eq_consttime_iff_eq_and_retrieve (a b : List Nat) (s : Storage)
    (app : List Nat) (k : ApplicationKey)
    (h : assocGet s.application_keys app = some k) :
    (eq_consttime a b = true ↔ a = b)
    ∧ (inMemoryStore.retrieve_application_key s app b = .ok (some k) ↔ k.handle = b)
    ∧ (k.handle ≠ b → inMemoryStore.retrieve_application_key s app b = .ok none) := by
  refine ⟨eq_consttime_eq_true_iff a b, ?_, ?_⟩
  · rw [retrieve_inMemory_eq s app b k h]
    by_cases he : k.handle = b
    · simp [he]
    · simp [he]
  · intro he
    rw [retrieve_inMemory_eq s app b k h, if_neg he]

/-- C10 witness at concrete inputs. -/
theorem eq_consttime_iff_eq_and_retrieve_witness :
    (eq_consttime [1, 2] [1, 2] = true ↔ ([1, 2] : List Nat) = [1, 2])
    ∧ (inMemoryStore.retrieve_application_key sAuth app0 [1, 2] = .ok (some k0)
        ↔ k0.handle = [1, 2])
    ∧ (k0.handle ≠ [1, 2] →
        inMemoryStore.retrieve_application_key sAuth app0 [1, 2] = .ok none) :=
  eq_consttime_iff_eq_and_retrieve [1, 2] [1, 2] sAuth app0 k0 (by decide)

/-- C6: a registration denied by user presence fails with
`ApprovalRequired`, leaves the store state unchanged, and the result does
not depend on the key generator or on the store at all (approval is
checked before either is consulted). -/
theorem register_denied_no_mutation {σ : Type} (u : U2F σ) (s : σ) (app ch : List Nat)
    (h : u.approval.approve_registration app = .ok false) :
    u.register s app ch = (.error .approvalRequired, s)
    ∧ ∀ (gen2 : List Nat → IoResult ApplicationKey) (store2 : SecretStore σ),
        U2F.register ⟨u.approval, { u.operations with generate_application_key := gen2 },
            store2⟩ s app ch
          = (.error .approvalRequired, s) := by
  constructor
  · simp [U2F.register, h]
  · intro gen2 store2
    simp [U2F.register, h]

/-- C6 witness: a concrete denying presence on the in-memory store. -/
theorem register_denied_no_mutation_witness :
    u2fDeny.register InMemoryStorage.new app0 ch0
      = (.error .approvalRequired, InMemoryStorage.new) :=
  (register_denied_no_mutation u2fDeny InMemoryStorage.new app0 ch0 rfl).1

/-- C7: the encoded registration response is exactly
`0x05 ‖ publicKey(65) ‖ keyHandleLen(1) ‖ keyHandle ‖ cert ‖ signature`
followed by the big-endian status word `0x9000`. -/
theorem registration_response_layout (upk kh cert sig : List Nat)
    (_hupk : upk.length = 65) (hkh : kh.length ≤ 128) :
    (Response.registration upk kh cert sig).into_bytes
      = [0x05] ++ upk ++ [kh.length] ++ kh ++ cert ++ sig ++ [0x90, 0x00] := by
  have hmod : kh.length % 256 = kh.length := Nat.mod_eq_of_lt (by omega)
  simp [Response.into_bytes, StatusCode.write, u16be, statusValue, SW_NO_ERROR, hmod]

/-- C7 witness at a concrete response. -/
theorem registration_response_layout_witness :
    (Response.registration (4 :: List.replicate 64 2) [1, 2] [0xDE] [0xAB]).into_bytes
      = [0x05] ++ (4 :: List.replicate 64 2) ++ [2] ++ [1, 2] ++ [0xDE] ++ [0xAB]
        ++ [0x90, 0x00] :=
  registration_response_layout (4 :: List.replicate 64 2) [1, 2] [0xDE] [0xAB]
    (by decide) (by decide)

/-- C9: at the service layer, `CheckOnly` yields
`TestOfUserPresenceNotSatisfied` (status `0x6985`) on a valid handle and
`InvalidKeyHandle` (status `0x6A80`) on an invalid one, and
`DontEnforceUserPresenceAndSign` always yields
`TestOfUserPresenceNotSatisfied`; both leave the store state untouched
and never invoke the signer (the outcome is unchanged under replacing
`sign` and `attest` by arbitrary functions). -/
theorem checkonly_dontenforce_dispatch {σ : Type} (u : U2F σ) (s : σ)
    (app ch kh : List Nat) :
    (∀ k, u.storage.retrieve_application_key s app kh = .ok (some k) →
        u.call s (.authenticate app ch .checkOnly kh)
          = (.finished .testOfUserPresenceNotSatisfied, s))
    ∧ (u.storage.retrieve_application_key s app kh = .ok none →
        u.call s (.authenticate app ch .checkOnly kh) = (.finished .invalidKeyHandle, s))
    ∧ u.call s (.authenticate app ch .dontEnforceUserPresenceAndSign kh)
        = (.finished .testOfUserPresenceNotSatisfied, s)
    ∧ (u.call s (.authenticate app ch .checkOnly kh)).2 = s
    ∧ (∀ sign2 attest2,
        U2F.call ⟨u.approval, { u.operations with sign := sign2, attest := attest2 },
            u.storage⟩ s (.authenticate app ch .checkOnly kh)
          = u.call s (.authenticate app ch .checkOnly kh)
        ∧ U2F.call ⟨u.approval, { u.operations with sign := sign2, attest := attest2 },
            u.storage⟩ s (.authenticate app ch .dontEnforceUserPresenceAndSign kh)
          = u.call s (.authenticate app ch .dontEnforceUserPresenceAndSign kh))
    ∧ Response.into_bytes .testOfUserPresenceNotSatisfied = [0x69, 0x85]
    ∧ Response.into_bytes .invalidKeyHandle = [0x6A, 0x80] := by
  refine ⟨?_, ?_, rfl, ?_, ?_, by decide, by decide⟩
  · intro k hk
    simp [U2F.call, U2F.is_valid_key_handle, hk]
  · intro hk
    simp [U2F.call, U2F.is_valid_key_handle, hk]
  · show (match u.is_valid_key_handle s kh app with
      | .ok true => ((.finished .testOfUserPresenceNotSatisfied, s) : CallOutcome × σ)
      | .ok false => (.finished .invalidKeyHandle, s)
      | .ioError => (.failed, s)).2 = s
    rcases u.is_valid_key_handle s kh app with b | _
    · cases b <;> rfl
    · rfl
  · intro sign2 attest2
    exact ⟨rfl, rfl⟩

/-- C9 witness: both the valid-handle and invalid-handle branches at
concrete inputs. -/
theorem checkonly_dontenforce_dispatch_witness :
    u2fTest.call sAuth (.authenticate app0 ch0 .checkOnly [7, 7, 7])
      = (.finished .testOfUserPresenceNotSatisfied, sAuth)
    ∧ u2fTest.call sAuth (.authenticate app0 ch0 .checkOnly [9])
      = (.finished .invalidKeyHandle, sAuth)
    ∧ u2fTest.call sAuth (.authenticate app0 ch0 .dontEnforceUserPresenceAndSign [9])
      = (.finished .testOfUserPresenceNotSatisfied, sAuth) :=
  ⟨(checkonly_dontenforce_dispatch u2fTest sAuth app0 ch0 [7, 7, 7]).1 k0 (by decide),
   (checkonly_dontenforce_dispatch u2fTest sAuth app0 ch0 [9]).2.1 (by decide),
   (checkonly_dontenforce_dispatch u2fTest sAuth app0 ch0 [9]).2.2.1⟩

/-- C8: the authentication signing input is exactly
`application(32) ‖ 0x01 ‖ counter(u32 BE) ‖ challenge(32)` (69 bytes),
and `authenticate` signs it with the stored application key, with
user-presence byte `0x01` and the counter returned by the store. -/
theorem authenticate_signing_input {σ : Type} (u : U2F σ) (s s1 : σ)
    (app ch kh : List Nat) (k : ApplicationKey) (c : Nat) (sig : List Nat)
    (h32a : app.length = 32) (h32c : ch.length = 32)
    (hretr : u.storage.retrieve_application_key s app kh = .ok (some k))
    (happr : u.approval.approve_authentication app = .ok true)
    (hcnt : u.storage.get_then_increment_counter s app = .ok (c, s1))
    (hsig : u.operations.sign k.key
        (message_to_sign_for_authenticate app ch (user_presence_byte true) c)
      = .ok sig) :
    user_presence_byte true = 1
    ∧ message_to_sign_for_authenticate app ch (user_presence_byte true) c
        = app ++ [1] ++ u32be c ++ ch
    ∧ (message_to_sign_for_authenticate app ch (user_presence_byte true) c).length = 69
    ∧ u.authenticate s app ch kh
        = (.ok { counter := c, signature := sig, user_present := true }, s1) := by
  have hup : user_presence_byte true = 1 := by decide
  refine ⟨hup, by rw [hup]; rfl, ?_, ?_⟩
  · simp [message_to_sign_for_authenticate, u32be, h32a, h32c]
  · simp [U2F.authenticate, hretr, happr, hcnt, hsig]

/-- C8 witness: a concrete store with a registered credential and an
existing counter value 5. -/
theorem authenticate_signing_input_witness :
    u2fTest.authenticate sAuth app0 ch0 [7, 7, 7]
      = (.ok { counter := 5,
               signature := 5 :: message_to_sign_for_authenticate app0 ch0
                 (user_presence_byte true) 5,
               user_present := true }, sAuth1) :=
  (authenticate_signing_input u2fTest sAuth sAuth1 app0 ch0 [7, 7, 7] k0 5
    (5 :: message_to_sign_for_authenticate app0 ch0 (user_presence_byte true) 5)
    (by decide) (by decide) (by decide) rfl (by decide) rfl).2.2.2

/-- C5: registering on the empty in-memory store yields a key handle that
validates for the registered application and for no other application. -/
theorem register_roundtrip_validity (pres : UserPresence) (ops : CryptoOperations)
    (app ch app' : List Nat) (k : ApplicationKey) (r : Registration) (s' : Storage)
    (happrove : pres.approve_registration app = .ok true)
    (hgen : ops.generate_application_key app = .ok k)
    (hkapp : k.application = app)
    (hreg : U2F.register ⟨pres, ops, inMemoryStore⟩ InMemoryStorage.new app ch
      = (.ok r, s'))
    (hne : app' ≠ app) :
    U2F.is_valid_key_handle ⟨pres, ops, inMemoryStore⟩ s' r.key_handle app = .ok true
    ∧ U2F.is_valid_key_handle ⟨pres, ops, inMemoryStore⟩ s' r.key_handle app'
        = .ok false := by
  subst hkapp
  simp only [U2F.register, happrove, hgen] at hreg
  have hadd : inMemoryStore.add_application_key InMemoryStorage.new k
      = .ok ⟨[(k.application, k)], []⟩ := rfl
  rw [hadd] at hreg
  rcases hattest : ops.attest (message_to_sign_for_register k.application ch
      (ops.public_key_to_raw k.key) k.handle) with e | sig
  · cases e
  · rw [hattest] at hreg
    simp only [Bool.not_true, Bool.false_eq_true, if_false, Prod.mk.injEq] at hreg
    obtain ⟨hr, hs⟩ := hreg
    have hrk : r.key_handle = k.handle := by
      have h3 := Except.ok.inj hr
      rw [← h3]
    subst hs
    rw [hrk]
    constructor
    · simp only [U2F.is_valid_key_handle]
      rw [retrieve_inMemory_eq ⟨[(k.application, k)], []⟩ k.application k.handle k
        (by simp [assocGet]), if_pos rfl]
    · simp only [U2F.is_valid_key_handle]
      have hget : assocGet ([(k.application, k)] :
          List (List Nat × ApplicationKey)) app' = none := by
        have hne2 : ¬ (k.application = app') := fun hh => hne hh.symm
        simp [assocGet, hne2]
      rw [retrieve_inMemory_none ⟨[(k.application, k)], []⟩ app' k.handle hget]

/-- C5 witness: a concrete registration on the empty store, checked
against the registered application and a different one. -/
theorem register_roundtrip_validity_witness :
    U2F.is_valid_key_handle ⟨approveAll, testOps, inMemoryStore⟩
        ⟨[(app0, k0)], []⟩ k0.handle app0 = .ok true
    ∧ U2F.is_valid_key_handle ⟨approveAll, testOps, inMemoryStore⟩
        ⟨[(app0, k0)], []⟩ k0.handle app1 = .ok false := by
  have h := register_roundtrip_validity approveAll testOps app0 ch0 app1 k0
    { user_public_key := 4 :: List.replicate 64 2,
      key_handle := [7, 7, 7],
      attestation_certificate := [0xDE, 0xAD],
      signature := 0 :: message_to_sign_for_register app0 ch0
        (4 :: List.replicate 64 2) [7, 7, 7] }
    ⟨[(app0, k0)], []⟩ rfl rfl rfl (by decide) (by decide)
  exact h

/-- C1 (code-bug evidence): on the reference in-memory store the first
TWO counter reads both return 0 — the absent-counter branch inserts 0 and
returns it without incrementing — so two consecutive `authenticate` calls
on the same application observe counters 0 then 0, not 0 then 1. -/
theorem counter_first_two_reads_both_zero :
    inMemoryStore.get_then_increment_counter InMemoryStorage.new app0
      = .ok (0, ⟨[], [(app0, 0)]⟩)
    ∧ inMemoryStore.get_then_increment_counter ⟨[], [(app0, 0)]⟩ app0
      = .ok (0, ⟨[], [(app0, 1)]⟩)
    ∧ ((u2fTest.authenticate sAuthFresh app0 ch0 [7, 7, 7]).1.toOption.map
        Authentication.counter = some 0)
    ∧ ((u2fTest.authenticate
          (u2fTest.authenticate sAuthFresh app0 ch0 [7, 7, 7]).2
          app0 ch0 [7, 7, 7]).1.toOption.map Authentication.counter = some 0) := by
  decide

/-- C2 (code-bug evidence): on a well-formed Authenticate APDU the
decoder maps `P1 = 0x07` to `CheckOnly` and `P1 = 0x03` to
`EnforceUserPresenceAndSign` as claimed, but `P1 = 0x08` panics
(`panic!("Unknown control code")`); the `DontEnforceUserPresenceAndSign`
variant is instead selected by `P1 = 0x01`, because the source's
`AUTH_ENFORCE | AUTH_FLAG_TUP` arm is a Rust or-pattern. -/
theorem control_code_mapping :
    Request.decode (authApdu 0x07)
      = .ok (.authenticate app0 ch0 .checkOnly [])
    ∧ Request.decode (authApdu 0x03)
      = .ok (.authenticate app0 ch0 .enforceUserPresenceAndSign [])
    ∧ Request.decode (authApdu 0x08) = .panics
    ∧ Request.decode (authApdu 0x01)
      = .ok (.authenticate app0 ch0 .dontEnforceUserPresenceAndSign []) := by
  decide

/-- C3 (code-bug evidence): `Request::decode` is not total — it panics on
the empty input, on a bare 4-byte header, and on an unsupported
instruction byte, instead of returning a `RequestLengthInvalid` or
`RequestInstructionNotSupported` error. -/
theorem decode_panics_on_malformed :
    Request.decode [] = .panics
    ∧ Request.decode [0x00, 0x01, 0x00, 0x00] = .panics
    ∧ Request.decode [0x00, 0x99, 0x00, 0x00, 0x00, 0x00, 0x00] = .panics := by
  decide

/-- C4 counterexample: with a user-presence collaborator whose
registration approval fails with an I/O error, `call` on a Register
request produces a transport-level failed future, not the `UnknownError`
response the claim requires. -/
theorem register_io_error_is_transport_failure :
    u2fIoReg.call InMemoryStorage.new (.register app0 ch0)
      = (.failed, InMemoryStorage.new)
    ∧ ((.failed, InMemoryStorage.new) : CallOutcome × Storage)
        ≠ ((.finished .unknownError, InMemoryStorage.new) : CallOutcome × Storage) := by
  decide

/-- C4 amended: collaborator I/O errors surface as the `UnknownError`
response for Authenticate with `EnforceUserPresenceAndSign` and for Wink,
but for Register (and for the `CheckOnly` handle check) they are
propagated as transport-level failures of the future. -/
theorem io_error_mapping {σ : Type} (u : U2F σ) (s : σ) (app ch kh : List Nat) :
    (u.approval.approve_registration app = .ioError →
      u.call s (.register app ch) = (.failed, s))
    ∧ (u.approval.approve_registration app = .ok true →
        u.operations.generate_application_key app = .ioError →
        u.call s (.register app ch) = (.failed, s))
    ∧ (u.storage.retrieve_application_key s app kh = .ioError →
        u.call s (.authenticate app ch .enforceUserPresenceAndSign kh)
            = (.finished .unknownError, s)
        ∧ u.call s (.authenticate app ch .checkOnly kh) = (.failed, s))
    ∧ (∀ k, u.storage.retrieve_application_key s app kh = .ok (some k) →
        u.approval.approve_authentication app = .ioError →
        u.call s (.authenticate app ch .enforceUserPresenceAndSign kh)
          = (.finished .unknownError, s))
    ∧ (∀ k, u.storage.retrieve_application_key s app kh = .ok (some k) →
        u.approval.approve_authentication app = .ok true →
        u.storage.get_then_increment_counter s app = .ioError →
        u.call s (.authenticate app ch .enforceUserPresenceAndSign kh)
          = (.finished .unknownError, s))
    ∧ (u.approval.wink = .ioError → u.call s .wink = (.finished .unknownError, s)) := by
  refine ⟨?_, ?_, ?_, ?_, ?_, ?_⟩
  · intro h
    simp [U2F.call, U2F.register, h]
  · intro h1 h2
    simp [U2F.call, U2F.register, h1, h2]
  · intro h
    exact ⟨by simp [U2F.call, U2F.authenticate, h],
           by simp [U2F.call, U2F.is_valid_key_handle, h]⟩
  · intro k h1 h2
    simp [U2F.call, U2F.authenticate, h1, h2]
  · intro k h1 h2 h3
    simp [U2F.call, U2F.authenticate, h1, h2, h3]
  · intro h
    simp [U2F.call, h]

/-- C4 amended witness: each mapping at a concrete collaborator set. -/
theorem io_error_mapping_witness :
    u2fIoReg.call InMemoryStorage.new (.register app1 ch0)
      = (.failed, InMemoryStorage.new)
    ∧ u2fIoStore.call InMemoryStorage.new
        (.authenticate app0 ch0 .enforceUserPresenceAndSign [7, 7, 7])
      = (.finished .unknownError, InMemoryStorage.new)
    ∧ u2fIoStore.call InMemoryStorage.new
        (.authenticate app0 ch0 .checkOnly [7, 7, 7])
      = (.failed, InMemoryStorage.new)
    ∧ u2fIoWink.call InMemoryStorage.new .wink
      = (.finished .unknownError, InMemoryStorage.new) :=
  ⟨(io_error_mapping u2fIoReg InMemoryStorage.new app1 ch0 []).1 rfl,
   ((io_error_mapping u2fIoStore InMemoryStorage.new app0 ch0 [7, 7, 7]).2.2.1 rfl).1,
   ((io_error_mapping u2fIoStore InMemoryStorage.new app0 ch0 [7, 7, 7]).2.2.1 rfl).2,
   (io_error_mapping u2fIoWink InMemoryStorage.new app0 ch0 []).2.2.2.2.2 rfl⟩
